import Mathlib

/-!
Verification of the realtime connection / event-distribution subsystem of the
sharezin-render backend (src/utils/websocket-manager.ts, src/routes/realtime.ts,
src/utils/notification-broadcaster.ts), as a shallow embedding in Lean 4.

The JS `Map<string, WebSocketConnection>` registry is embedded as a list of
connections in insertion order (Map iteration order); lookup by id is
`List.find?`, deletion is `List.filter`, and per-entry mutation is a `map`
that rewrites the entry with the matching id.  The untyped socket handle is
embedded by the two observables the manager reads from it: `readyState` and
whether `send` throws.  Timer state (the one-shot pong timeout) is embedded
as a Boolean "armed" flag on the connection; the full interval/timeout
heartbeat dynamics are embedded separately as a discrete-time step function.
-/

namespace Sharezin

/-- The transport handle (`connection.socket`), reduced to the observables the
manager reads: `readyState` (1 = OPEN) and whether a `send` call throws. -/
structure Socket where
  readyState : Nat
  sendFails : Bool
deriving DecidableEq, Repr

/-- `WebSocketConnection` from websocket-manager.ts.  `subscriptions` is the JS
`Set<string>` (membership is what matters); `pongTimeoutArmed` records whether
the one-shot `pongTimeout` timer is currently armed. -/
structure WebSocketConnection where
  id : String
  socket : Socket
  userId : Option String
  subscriptions : List String
  isAlive : Bool
  pongTimeoutArmed : Bool
deriving DecidableEq, Repr

/-- The `ConnectionManager`'s `connections : Map<string, WebSocketConnection>`,
in insertion order. -/
abbrev Registry := List WebSocketConnection

/-- `getConnection(id)`: `this.connections.get(id)`. -/
def getConnection (reg : Registry) (id : String) : Option WebSocketConnection :=
  reg.find? (fun c => c.id == id)

/-- `addConnection(socket, userId)`: create a fresh connection record
(isAlive = true, empty subscription set) and insert it.  The caller supplies
the freshly generated `randomUUID` id. -/
def addConnection (reg : Registry) (id : String) (socket : Socket)
    (userId : Option String) : Registry :=
  reg ++ [{ id := id, socket := socket, userId := userId, subscriptions := [],
            isAlive := true, pongTimeoutArmed := false }]

/-- `removeConnection(id)`: if present, clean up timers and delete from the map
(embedded as filtering the entry out; timer cleanup is captured by the entry,
with its timer flags, disappearing). -/
def removeConnection (reg : Registry) (id : String) : Registry :=
  reg.filter (fun c => c.id != id)

/-- Rewrite the entry with id `cid` by `f` (the embedding of
`this.connections.get(cid)` followed by in-place mutation). -/
def updateConn (reg : Registry) (cid : String)
    (f : WebSocketConnection → WebSocketConnection) : Registry :=
  reg.map (fun c => if c.id == cid then f c else c)

/-- `subscribe(connectionId, channel)`: add `channel` to the connection's
subscription `Set` (no duplicates), no-op when the connection is absent. -/
def subscribe (reg : Registry) (cid channel : String) : Registry :=
  updateConn reg cid (fun c =>
    { c with subscriptions :=
        if channel ∈ c.subscriptions then c.subscriptions
        else c.subscriptions ++ [channel] })

/-- `unsubscribe(connectionId, channel)`: delete `channel` from the
connection's subscription `Set`. -/
def unsubscribe (reg : Registry) (cid channel : String) : Registry :=
  updateConn reg cid (fun c =>
    { c with subscriptions := c.subscriptions.filter (fun s => s != channel) })

/-- `markConnectionAlive(connectionId)`: set `isAlive = true` and clear the
pending `pongTimeout` if armed. -/
def markConnectionAlive (reg : Registry) (cid : String) : Registry :=
  updateConn reg cid (fun c => { c with isAlive := true, pongTimeoutArmed := false })

/-- Whether `sendToConnection` succeeds on connection `c`: the socket is OPEN
(`readyState === 1`) and `socket.send` does not throw. -/
def sendOk (c : WebSocketConnection) : Bool :=
  c.socket.readyState == 1 && !c.socket.sendFails

/-- `sendToConnection(connectionId, message)`: returns whether the message was
handed to the transport (false when absent, not OPEN, or send threw). -/
def sendToConnection (reg : Registry) (cid : String) : Bool :=
  match getConnection reg cid with
  | some c => sendOk c
  | none => false

/-- `getConnectionsByUserId(userId)`: all registered connections whose
`userId` equals the argument. -/
def getConnectionsByUserId (reg : Registry) (userId : String) :
    List WebSocketConnection :=
  reg.filter (fun c => c.userId == some userId)

/-- `broadcastToUser(userId, message)`: try `sendToConnection` on each
connection of that user, returning the number of successful hand-offs. -/
def broadcastToUser (reg : Registry) (userId : String) : Nat :=
  (getConnectionsByUserId reg userId).countP (fun c => sendToConnection reg c.id)

/-- `Notification` from src/types (only `userId` influences routing; the
payload fields id/type/title/message/receiptId/relatedUserId/isRead/timestamps
are carried opaquely and do not affect delivery). -/
structure Notification where
  userId : String
deriving DecidableEq, Repr

/-- `broadcastNotification(notification)` from notification-broadcaster.ts:
returns early when `notification.userId` is falsy (empty string), otherwise
delegates to `broadcastToUser`.  We expose the number of hand-offs. -/
def broadcastNotification (reg : Registry) (n : Notification) : Nat :=
  if n.userId = "" then 0
  else broadcastToUser reg n.userId

/-! ## The realtime gateway (src/routes/realtime.ts) -/

/-- An inbound frame as seen by the `message` handler: either unparseable JSON
(the `catch` branch), or a parsed object with its `type`, `channel`,
`receiptId` and `table` fields (absent fields are `none`; a present field is
a non-empty string, matching JS truthiness of the fields the handler tests). -/
inductive Inbound where
  | malformed
  | frame (msgType : String) (channel : Option String)
      (receiptId : Option String) (table : Option String)
deriving DecidableEq, Repr

/-- The outbound messages the gateway can emit on a connection's socket. -/
inductive Outbound where
  | connected (authenticated : Bool) (userId : Option String)
  | pong
  | subscribed (channel : Option String) (receiptId : Option String)
      (table : Option String)
  | unsubscribed (channel : Option String) (receiptId : Option String)
      (table : Option String)
  | error (message : String)
deriving DecidableEq, Repr

/-- The per-connection gateway context: the shared `connectionManager`
registry, the `connectionId` returned by `addConnection`, the `userId`
captured at connect time, and the local `supabaseChannels` map (embedded as
its key set, since the handler only queries `has`/`set`/`delete` by key). -/
structure GatewayState where
  reg : Registry
  connectionId : String
  userId : Option String
  supabaseChannels : List String
deriving DecidableEq, Repr

/-- The `connection.on('message')` handler: given the current gateway state
and an inbound frame, produce the next state and the replies sent on this
connection's socket, following the branch order of the source.  The handler
never closes the socket nor unregisters the connection; all of its effects
are captured in the returned state and reply list. -/
def handleMessage (st : GatewayState) (msg : Inbound) :
    GatewayState × List Outbound :=
  match msg with
  | .malformed => (st, [.error "Invalid message format"])
  | .frame msgType channel receiptId table =>
    if msgType = "ping" then
      ({ st with reg := markConnectionAlive st.reg st.connectionId }, [.pong])
    else if msgType = "subscribe" then
      if channel = some "notifications" then
        match st.userId with
        | none =>
            (st, [.error "Authentication required to subscribe to notifications"])
        | some _ =>
            ({ st with reg := subscribe st.reg st.connectionId "notifications" },
             [.subscribed (some "notifications") none none])
      else if h : channel = some "receipt" ∧ receiptId.isSome then
        ({ st with reg := subscribe st.reg st.connectionId (receiptId.get h.2) },
         [.subscribed (some "receipt") receiptId none])
      else
        match table with
        | some tb =>
          if ("table:" ++ tb) ∈ st.supabaseChannels then
            (st, [.error ("Already subscribed to table: " ++ tb)])
          else
            ({ st with supabaseChannels :=
                 st.supabaseChannels ++ ["table:" ++ tb] },
             [.subscribed none none (some tb)])
        | none =>
          (st, [.error "Invalid subscription. Provide channel (notifications/receipt) or table"])
    else if msgType = "unsubscribe" then
      if channel = some "notifications" then
        ({ st with reg := unsubscribe st.reg st.connectionId "notifications" },
         [.unsubscribed (some "notifications") none none])
      else if h : channel = some "receipt" ∧ receiptId.isSome then
        ({ st with reg := unsubscribe st.reg st.connectionId (receiptId.get h.2) },
         [.unsubscribed (some "receipt") receiptId none])
      else
        match table with
        | some tb =>
          if ("table:" ++ tb) ∈ st.supabaseChannels then
            ({ st with supabaseChannels :=
                 st.supabaseChannels.filter (fun k => k != ("table:" ++ tb)) },
             [.unsubscribed none none (some tb)])
          else
            (st, [])
        | none =>
          (st, [.error "Invalid unsubscribe. Provide channel or table"])
    else
      (st, [.error "Unknown message type"])

/-- The decoded result of a successful token verification
(`fastify.jwt.verify(token) as { id, email }`). -/
structure VerifiedUser where
  id : String
  email : String
deriving DecidableEq, Repr

/-- Remove the first occurrence of `pat` from a character list (helper for
`replaceFirst`). -/
def replaceFirstAux (pat : List Char) : List Char → List Char
  | [] => []
  | c :: cs =>
    if pat.isPrefixOf (c :: cs) then (c :: cs).drop pat.length
    else c :: replaceFirstAux pat cs

/-- JS `String.prototype.replace` with a string pattern: delete the first
occurrence of `pat` in `s` (used as `authorization.replace('Bearer ', '')`). -/
def replaceFirst (s pat : String) : String :=
  ⟨replaceFirstAux pat.data s.data⟩

/-- The token selected by the connect handler:
`req.query.token || req.headers.authorization?.replace('Bearer ', '')`
(absent fields are `none`; a present token is non-empty, matching the JS
truthiness test). -/
def tokenOf (queryToken authHeader : Option String) : Option String :=
  match queryToken with
  | some t => some t
  | none => authHeader.map (fun h => replaceFirst h "Bearer ")

/-- The user id the connect handler registers with: present iff a token was
supplied and the verifier accepted it (`verifyToken` returns `null` on a
missing token or a verification error). -/
def connectUserId (queryToken authHeader : Option String)
    (verify : String → Option VerifiedUser) : Option String :=
  match tokenOf queryToken authHeader with
  | some t => (verify t).map (fun u => u.id)
  | none => none

/-- The `/ws` connect handler: resolve the token, register the connection
(authentication failure never refuses it), and send the `connected` welcome
message with `authenticated` and `userId` fields. -/
def realtimeConnect (reg : Registry) (freshId : String) (socket : Socket)
    (queryToken authHeader : Option String)
    (verify : String → Option VerifiedUser) : Registry × Outbound :=
  let userId := connectUserId queryToken authHeader verify
  (addConnection reg freshId socket userId,
   .connected userId.isSome userId)

/-! ## Graceful shutdown (`closeAllConnections`) -/

/-- The observable transport effects of `closeAllConnections`, in order. -/
inductive ShutdownEvent where
  | sentShutdown (id : String)
  | closed (id : String)
deriving DecidableEq, Repr

/-- The per-connection body of the `closeAllConnections` loop: when the socket
is OPEN, send the shutdown message and then `close(1001, ...)`; a throwing
`send` aborts the `try` block (the close is skipped, the error is caught); a
non-OPEN socket gets neither.  `cleanupConnection` (timer release) has no
transport effect. -/
def closeEventsFor (c : WebSocketConnection) : List ShutdownEvent :=
  if c.socket.readyState == 1 then
    if c.socket.sendFails then []
    else [.sentShutdown c.id, .closed c.id]
  else []

/-- `closeAllConnections()`: iterate the registry emitting the per-connection
effects, then `this.connections.clear()`. -/
def closeAllConnections (reg : Registry) : Registry × List ShutdownEvent :=
  ([], (reg.map closeEventsFor).flatten)

/-- `sentShutdown cid` occurs in the trace strictly before `closed cid`. -/
def sentBeforeClosed (cid : String) (evs : List ShutdownEvent) : Prop :=
  ∃ l₁ l₂ l₃,
    evs = l₁ ++ [ShutdownEvent.sentShutdown cid] ++ l₂ ++
          [ShutdownEvent.closed cid] ++ l₃

/-! ## The per-connection heartbeat (`startHeartbeatForConnection`)

The timers are embedded as a discrete-time step function over seconds.  At
registration (time 0) a recurring 30 s `pingInterval` starts and the
connection is alive.  At each second, first an inbound application `ping`
from the peer (if any) is processed (`markConnectionAlive`); then the armed
one-shot `pongTimeout` fires if its deadline is now; then the interval tick
fires if it is a positive multiple of 30 s.  Eviction (`removeConnection` +
`socket.terminate()`) deletes the registry entry, which clears both timers
(`cleanupConnection`), so a dangling callback never re-fires.  The socket is
taken to stay OPEN (readyState 1) with a non-throwing `send`, the silent-peer
case the eviction bound is about. -/

/-- Heartbeat-relevant state of one connection: liveness flag, registry
membership, whether the recurring ping interval is active, the pending pong
timeout deadline, and how many times the eviction side effects
(`removeConnection` + `terminate`) have run. -/
structure HBConn where
  isAlive : Bool
  registered : Bool
  pingIntervalActive : Bool
  pongDeadline : Option Nat
  evictCount : Nat
deriving DecidableEq, Repr

/-- Eviction: `removeConnection` (which clears both timers via
`cleanupConnection`) followed by `socket.terminate()`. -/
def hbEvict (s : HBConn) : HBConn :=
  { isAlive := s.isAlive, registered := false, pingIntervalActive := false,
    pongDeadline := none, evictCount := s.evictCount + 1 }

/-- The `pongTimeout` callback: evict iff the connection is still not alive. -/
def hbTimeoutFire (s : HBConn) : HBConn :=
  if !s.isAlive then hbEvict s else { s with pongDeadline := none }

/-- The `pingInterval` callback at time `t`: if the previous probe was never
answered, evict; otherwise mark provisionally not-alive, send the JSON ping
(socket OPEN, send succeeds) and arm the 10 s pong timeout. -/
def hbIntervalFire (t : Nat) (s : HBConn) : HBConn :=
  if !s.isAlive then hbEvict s
  else { s with isAlive := false, pongDeadline := some (t + 10) }

/-- One second of heartbeat time at time `t`: peer ping (if any), then the
armed timeout whose deadline is `t`, then the interval tick at multiples of
30 s. -/
def hbStep (peerPing : Bool) (t : Nat) (s : HBConn) : HBConn :=
  let s₁ := if peerPing && s.registered then
              { s with isAlive := true, pongDeadline := none }
            else s
  let s₂ := if s₁.pongDeadline = some t then hbTimeoutFire s₁ else s₁
  if s₂.pingIntervalActive && t % 30 == 0 then hbIntervalFire t s₂ else s₂

/-- The heartbeat state after `n` seconds, for a peer whose inbound ping
schedule is `peer` (registration at time 0 starts alive with the interval
running and no timeout armed). -/
def hbRun (peer : Nat → Bool) : Nat → HBConn
  | 0 => { isAlive := true, registered := true, pingIntervalActive := true,
           pongDeadline := none, evictCount := 0 }
  | n + 1 => hbStep (peer (n + 1)) (n + 1) (hbRun peer n)

/-- The run of a connection that never responds to any probe. -/
def silentRun (n : Nat) : HBConn :=
  hbRun (fun _ => false) n

/-! ## Concrete sample data used by witnesses and counterexamples -/

/-- A registered connection of user `u1` with an OPEN, non-throwing socket. -/
def sampleConnA : WebSocketConnection :=
  { id := "a", socket := ⟨1, false⟩, userId := some "u1", subscriptions := [],
    isAlive := true, pongTimeoutArmed := false }

/-- A registered connection of user `u2` with an OPEN, non-throwing socket. -/
def sampleConnB : WebSocketConnection :=
  { id := "b", socket := ⟨1, false⟩, userId := some "u2", subscriptions := [],
    isAlive := true, pongTimeoutArmed := false }

/-- A registered connection that is provisionally not-alive with its pong
timeout armed (a probe was sent and not yet answered). -/
def sampleStaleConn : WebSocketConnection :=
  { id := "c1", socket := ⟨1, false⟩, userId := none, subscriptions := [],
    isAlive := false, pongTimeoutArmed := true }

/-- A registered connection whose transport is already CLOSED
(`readyState = 3`). -/
def sampleClosedConn : WebSocketConnection :=
  { id := "d", socket := ⟨3, false⟩, userId := none, subscriptions := [],
    isAlive := true, pongTimeoutArmed := false }

/-- `sampleStaleConn` after `markConnectionAlive`. -/
def sampleRevivedConn : WebSocketConnection :=
  { id := "c1", socket := ⟨1, false⟩, userId := none, subscriptions := [],
    isAlive := true, pongTimeoutArmed := false }

/-- The gateway state of the anonymous stale connection. -/
def sampleStaleState : GatewayState :=
  { reg := [sampleStaleConn], connectionId := "c1", userId := none,
    supabaseChannels := [] }

/-- The gateway state of `sampleConnA`, authenticated as user `u1`. -/
def sampleAuthedState : GatewayState :=
  { reg := [sampleConnA], connectionId := "a", userId := some "u1",
    supabaseChannels := [] }

/-- A gateway state holding an active legacy table subscription to `x`. -/
def sampleTableState : GatewayState :=
  { reg := [], connectionId := "c", userId := none,
    supabaseChannels := ["table:x"] }

/-! ## Registry lemmas -/

theorem mem_getConnectionsByUserId (reg : Registry) (u : String)
    (c : WebSocketConnection) :
    c ∈ getConnectionsByUserId reg u ↔ c ∈ reg ∧ c.userId = some u := by
  simp [getConnectionsByUserId, List.mem_filter]

theorem getConnection_of_mem_nodup (reg : Registry) (c : WebSocketConnection)
    (hnd : (reg.map (fun c => c.id)).Nodup) (hc : c ∈ reg) :
    getConnection reg c.id = some c := by
  induction reg with
  | nil => cases hc
  | cons d rest ih =>
    simp only [List.map_cons, List.nodup_cons, List.mem_map] at hnd
    rcases List.mem_cons.mp hc with h | h
    · subst h
      simp [getConnection]
    · have hne : d.id ≠ c.id := fun he => hnd.1 ⟨c, h, he.symm⟩
      simpa [getConnection, List.find?_cons, hne] using ih hnd.2 h

theorem getConnection_updateConn (reg : Registry) (cid : String)
    (f : WebSocketConnection → WebSocketConnection)
    (hid : ∀ c, (f c).id = c.id) (x : String) :
    getConnection (updateConn reg cid f) x =
      (getConnection reg x).map (fun c => if c.id == cid then f c else c) := by
  induction reg with
  | nil => rfl
  | cons c rest ih =>
    have hgid : (if c.id == cid then f c else c).id = c.id := by
      by_cases h : c.id = cid <;> simp [h, hid c]
    unfold getConnection updateConn at ih ⊢
    rw [List.map_cons]
    cases hbx : (c.id == x) with
    | true =>
      rw [List.find?_cons, List.find?_cons, hgid, hbx]
      simp
    | false =>
      rw [List.find?_cons, List.find?_cons, hgid, hbx]
      simpa using ih

theorem sendToConnection_updateConn (reg : Registry) (cid : String)
    (f : WebSocketConnection → WebSocketConnection)
    (hid : ∀ c, (f c).id = c.id) (hsock : ∀ c, (f c).socket = c.socket)
    (x : String) :
    sendToConnection (updateConn reg cid f) x = sendToConnection reg x := by
  unfold sendToConnection
  rw [getConnection_updateConn reg cid f hid x]
  cases h : getConnection reg x with
  | none => rfl
  | some c =>
    by_cases hcc : c.id = cid <;> simp [hcc, sendOk, hsock c]

theorem getConnectionsByUserId_updateConn (reg : Registry) (cid : String)
    (f : WebSocketConnection → WebSocketConnection)
    (huser : ∀ c, (f c).userId = c.userId) (u : String) :
    getConnectionsByUserId (updateConn reg cid f) u =
      (getConnectionsByUserId reg u).map
        (fun c => if c.id == cid then f c else c) := by
  induction reg with
  | nil => rfl
  | cons c rest ih =>
    have hguser : (if c.id == cid then f c else c).userId = c.userId := by
      by_cases h : c.id = cid <;> simp [h, huser c]
    unfold getConnectionsByUserId updateConn at ih ⊢
    rw [List.map_cons]
    cases hbu : (c.userId == some u) with
    | true =>
      rw [List.filter_cons, List.filter_cons, hguser, hbu]
      simpa using ih
    | false =>
      rw [List.filter_cons, List.filter_cons, hguser, hbu]
      simpa using ih

theorem broadcastToUser_updateConn (reg : Registry) (cid : String)
    (f : WebSocketConnection → WebSocketConnection)
    (hid : ∀ c, (f c).id = c.id) (hsock : ∀ c, (f c).socket = c.socket)
    (huser : ∀ c, (f c).userId = c.userId) (u : String) :
    broadcastToUser (updateConn reg cid f) u = broadcastToUser reg u := by
  unfold broadcastToUser
  rw [getConnectionsByUserId_updateConn reg cid f huser u, List.countP_map]
  apply List.countP_congr
  intro c _
  have hgid : (if c.id == cid then f c else c).id = c.id := by
    by_cases h : c.id = cid <;> simp [h, hid c]
  simp only [Function.comp_apply, hgid]
  rw [sendToConnection_updateConn reg cid f hid hsock c.id]

/-! ## Claim theorems -/

/-- C1: the claim says an inbound `pong` frame (like an inbound `ping`) marks
the connection alive, cancels the pending heartbeat timeout, and draws no
`error` reply.  The code diverges on `pong`: the message handler has no
`pong` branch, so a `pong` frame falls through to the unknown-message branch
— the gateway replies `error "Unknown message type"`, the connection's
`isAlive` flag stays false and its pong timeout stays armed — whereas an
inbound `ping` on the same state does mark the connection alive, cancel the
timeout and reply `pong` with no error. -/
theorem c1_pong_frame_is_not_liveness_evidence :
    handleMessage sampleStaleState (.frame "pong" none none none) =
      (sampleStaleState, [.error "Unknown message type"])
    ∧ sampleStaleConn.isAlive = false
    ∧ sampleStaleConn.pongTimeoutArmed = true
    ∧ handleMessage sampleStaleState (.frame "ping" none none none) =
      ({ reg := [sampleRevivedConn], connectionId := "c1", userId := none,
         supabaseChannels := [] },
       [.pong]) := by
  decide

/-- C2: `broadcastToUser(userId, message)` targets exactly the registered
connections whose authenticated user id equals `userId` (and no others), and
returns the number of those connections whose transport actually accepted
the message (socket OPEN and `send` did not throw).  The id-uniqueness
hypothesis reflects `randomUUID` allocation of connection ids. -/
theorem c2_broadcastToUser_exact_targets (reg : Registry) (u : String)
    (hnd : (reg.map (fun c => c.id)).Nodup) :
    (∀ c, c ∈ getConnectionsByUserId reg u ↔ c ∈ reg ∧ c.userId = some u)
    ∧ broadcastToUser reg u =
        ((getConnectionsByUserId reg u).filter sendOk).length := by
  constructor
  · exact fun c => mem_getConnectionsByUserId reg u c
  · unfold broadcastToUser
    rw [← List.countP_eq_length_filter]
    apply List.countP_congr
    intro c hc
    have hmem : c ∈ reg := ((mem_getConnectionsByUserId reg u c).mp hc).1
    rw [show sendToConnection reg c.id = sendOk c from by
          unfold sendToConnection
          rw [getConnection_of_mem_nodup reg c hnd hmem]]

/-- Witness for C2 on a concrete two-user registry. -/
theorem c2_witness :
    (sampleConnA ∈ getConnectionsByUserId [sampleConnA, sampleConnB] "u1" ↔
      sampleConnA ∈ ([sampleConnA, sampleConnB] : Registry)
        ∧ sampleConnA.userId = some "u1")
    ∧ broadcastToUser [sampleConnA, sampleConnB] "u1" =
        ((getConnectionsByUserId [sampleConnA, sampleConnB] "u1").filter
          sendOk).length :=
  ⟨(c2_broadcastToUser_exact_targets [sampleConnA, sampleConnB] "u1"
      (by decide)).1 sampleConnA,
   (c2_broadcastToUser_exact_targets [sampleConnA, sampleConnB] "u1"
      (by decide)).2⟩

/-- C8: after `addConnection` the returned id resolves via `getConnection`;
after `removeConnection` it no longer resolves; `removeConnection` is
idempotent; and removing an id that is not registered leaves the registry
unchanged (a no-op, nothing throws). -/
theorem c8_registry_lifecycle (reg : Registry) (id : String) (sock : Socket)
    (uid : Option String) :
    (getConnection (addConnection reg id sock uid) id).isSome = true
    ∧ getConnection (removeConnection reg id) id = none
    ∧ removeConnection (removeConnection reg id) id = removeConnection reg id
    ∧ (getConnection reg id = none → removeConnection reg id = reg) := by
  refine ⟨?_, ?_, ?_, ?_⟩
  · unfold getConnection addConnection
    induction reg with
    | nil => simp
    | cons c rest ih =>
      rw [List.cons_append, List.find?_cons]
      cases hbx : (c.id == id) with
      | true => simp
      | false => simpa only [Option.isSome_some] using ih
  · unfold getConnection removeConnection
    rw [List.find?_eq_none]
    intro c hc
    have := (List.mem_filter.mp hc).2
    simpa using this
  · unfold removeConnection
    rw [List.filter_filter]
    apply List.filter_congr
    intro c _
    simp
  · intro h
    unfold getConnection at h
    rw [List.find?_eq_none] at h
    unfold removeConnection
    apply List.filter_eq_self.mpr
    intro c hc
    simpa using h c hc

set_option maxRecDepth 8000 in
/-- C4: a registered connection that never answers any probe is evicted
(removed from the registry, transport terminated) exactly at second 40 — one
30 s probe interval plus the 10 s timeout window — and the eviction side
effects run exactly once: the eviction clears both timers, so from second 40
on the state never changes again (the interval tick and the timeout cannot
both fire on the stale state). -/
theorem c4_silent_connection_evicted_within_40s_exactly_once :
    silentRun 40 = { isAlive := false, registered := false,
                     pingIntervalActive := false, pongDeadline := none,
                     evictCount := 1 }
    ∧ (silentRun 39).evictCount = 0
    ∧ ∀ n, 40 ≤ n → silentRun n = silentRun 40 := by
  refine ⟨by decide, by decide, ?_⟩
  intro n hn
  induction n, hn using Nat.le_induction with
  | base => rfl
  | succ n hn ih =>
    have h40 : silentRun 40 =
        { isAlive := false, registered := false, pingIntervalActive := false,
          pongDeadline := none, evictCount := 1 } := by decide
    show hbStep false (n + 1) (silentRun n) = silentRun 40
    rw [ih, h40]
    simp [hbStep]

set_option maxRecDepth 8000 in
/-- Witness for C4: at second 100 the state still equals the second-40
state (one eviction, never repeated). -/
theorem c4_witness :
    silentRun 40 = { isAlive := false, registered := false,
                     pingIntervalActive := false, pongDeadline := none,
                     evictCount := 1 }
    ∧ (silentRun 39).evictCount = 0
    ∧ silentRun 100 = silentRun 40 :=
  ⟨c4_silent_connection_evicted_within_40s_exactly_once.1,
   c4_silent_connection_evicted_within_40s_exactly_once.2.1,
   c4_silent_connection_evicted_within_40s_exactly_once.2.2 100 (by decide)⟩

/-- After `subscribe(cid, ch)`, looking up `cid` yields the connection with
`ch` added to its subscription set. -/
theorem getConnection_subscribe (reg : Registry) (cid ch : String)
    (c : WebSocketConnection) (hc : getConnection reg cid = some c)
    (hcid : (c.id == cid) = true) :
    getConnection (subscribe reg cid ch) cid =
      some { c with subscriptions :=
        if ch ∈ c.subscriptions then c.subscriptions
        else c.subscriptions ++ [ch] } := by
  have h := getConnection_updateConn reg cid
      (fun d => { d with subscriptions :=
        if ch ∈ d.subscriptions then d.subscriptions
        else d.subscriptions ++ [ch] })
      (fun _ => rfl) cid
  unfold subscribe updateConn at h ⊢
  rw [h, hc]
  exact congrArg some (by simp [beq_iff_eq.mp hcid])

/-- C3: an inbound `subscribe` frame for channel `notifications` on a
connection without an authenticated user id always yields the
authentication-required `error` reply and changes nothing (no subscription
recorded); on a connection with an authenticated user id the same frame
records the `notifications` subscription on the connection and replies
`subscribed`. -/
theorem c3_notifications_subscription_requires_auth :
    (∀ st rid tb, st.userId = none →
        handleMessage st (.frame "subscribe" (some "notifications") rid tb) =
          (st, [.error "Authentication required to subscribe to notifications"]))
    ∧ (∀ st rid tb uid c, st.userId = some uid →
        getConnection st.reg st.connectionId = some c →
        (handleMessage st (.frame "subscribe" (some "notifications") rid tb)).2 =
            [.subscribed (some "notifications") none none]
        ∧ ∃ c', getConnection
              (handleMessage st
                (.frame "subscribe" (some "notifications") rid tb)).1.reg
              st.connectionId = some c'
            ∧ "notifications" ∈ c'.subscriptions) := by
  constructor
  · intro st rid tb h
    simp [handleMessage, h]
  · intro st rid tb uid c hst hc
    have hred : handleMessage st
        (.frame "subscribe" (some "notifications") rid tb) =
        ({ st with reg := subscribe st.reg st.connectionId "notifications" },
         [.subscribed (some "notifications") none none]) := by
      simp [handleMessage, hst]
    have hcid : (c.id == st.connectionId) = true := by
      have h' := hc
      unfold getConnection at h'
      have h2 := List.find?_some h'
      exact h2
    refine ⟨by rw [hred], ?_⟩
    rw [hred]
    refine ⟨{ c with subscriptions :=
        if "notifications" ∈ c.subscriptions then c.subscriptions
        else c.subscriptions ++ ["notifications"] }, ?_, ?_⟩
    · exact getConnection_subscribe st.reg st.connectionId "notifications" c
        hc hcid
    · by_cases hmem : "notifications" ∈ c.subscriptions <;> simp [hmem]

/-- Witness for C3: an anonymous connection is refused, an authenticated one
gets the subscription recorded. -/
theorem c3_witness :
    handleMessage sampleStaleState
        (.frame "subscribe" (some "notifications") none none) =
      (sampleStaleState,
       [.error "Authentication required to subscribe to notifications"])
    ∧ ((handleMessage sampleAuthedState
          (.frame "subscribe" (some "notifications") none none)).2 =
        [.subscribed (some "notifications") none none]
      ∧ ∃ c', getConnection
            (handleMessage sampleAuthedState
              (.frame "subscribe" (some "notifications") none none)).1.reg
            sampleAuthedState.connectionId = some c'
          ∧ "notifications" ∈ c'.subscriptions) :=
  ⟨c3_notifications_subscription_requires_auth.1 sampleStaleState none none rfl,
   c3_notifications_subscription_requires_auth.2 sampleAuthedState none none
     "u1" sampleConnA rfl (by decide)⟩

/-- Witness for C8 on a concrete registry. -/
theorem c8_witness :
    (getConnection (addConnection [sampleConnA] "z" ⟨1, false⟩ none)
        "z").isSome = true
    ∧ getConnection (removeConnection [sampleConnA] "z") "z" = none
    ∧ removeConnection (removeConnection [sampleConnA] "z") "z" =
        removeConnection [sampleConnA] "z"
    ∧ removeConnection [sampleConnA] "z" = [sampleConnA] :=
  ⟨(c8_registry_lifecycle [sampleConnA] "z" ⟨1, false⟩ none).1,
   (c8_registry_lifecycle [sampleConnA] "z" ⟨1, false⟩ none).2.1,
   (c8_registry_lifecycle [sampleConnA] "z" ⟨1, false⟩ none).2.2.1,
   (c8_registry_lifecycle [sampleConnA] "z" ⟨1, false⟩ none).2.2.2
     (by decide)⟩

/-- A member's image block can be isolated inside a flattened map. -/
theorem flatten_decomp {α β : Type} (f : α → List β) (l : List α) (c : α)
    (hc : c ∈ l) :
    ∃ A B, (l.map f).flatten = A ++ f c ++ B := by
  induction l with
  | nil => cases hc
  | cons d rest ih =>
    rcases List.mem_cons.mp hc with h | h
    · subst h
      exact ⟨[], (rest.map f).flatten, by simp⟩
    · obtain ⟨A, B, hAB⟩ := ih h
      exact ⟨f d ++ A, B, by simp [hAB]⟩

/-- C5 counterexample: a registered connection whose transport is no longer
OPEN (`readyState = 3`) is cleared from the registry by
`closeAllConnections` without ever being sent the shutdown message — the
trace of transport effects is empty — refuting "every connection that was
registered when it started was sent the shutdown message before its
transport was closed". -/
theorem c5_counterexample :
    sampleClosedConn ∈ ([sampleClosedConn] : Registry)
    ∧ (closeAllConnections [sampleClosedConn]).1 = []
    ∧ (closeAllConnections [sampleClosedConn]).2 = []
    ∧ ShutdownEvent.sentShutdown sampleClosedConn.id ∉
        (closeAllConnections [sampleClosedConn]).2 := by
  decide

/-- C5 (amended): after `closeAllConnections` the registry is empty, and
every connection that was registered when it started *whose transport was
OPEN and whose send did not throw* was sent the shutdown message before its
transport was closed (connections with a non-OPEN transport, or whose send
threw, are cleared without the message / the close). -/
theorem c5_closeAll_empties_and_sends_before_close (reg : Registry) :
    (closeAllConnections reg).1 = []
    ∧ ∀ c, c ∈ reg → c.socket.readyState = 1 → c.socket.sendFails = false →
        sentBeforeClosed c.id (closeAllConnections reg).2 := by
  refine ⟨rfl, ?_⟩
  intro c hc h1 h2
  have hev : closeEventsFor c =
      [ShutdownEvent.sentShutdown c.id, ShutdownEvent.closed c.id] := by
    unfold closeEventsFor
    rw [h1, h2]
    simp
  obtain ⟨A, B, hAB⟩ := flatten_decomp closeEventsFor reg c hc
  refine ⟨A, [], B, ?_⟩
  show (reg.map closeEventsFor).flatten = _
  rw [hAB, hev]
  simp

/-- Witness for the amended C5 on a one-connection registry with an OPEN
transport. -/
theorem c5_witness :
    (closeAllConnections [sampleConnA]).1 = []
    ∧ sentBeforeClosed sampleConnA.id (closeAllConnections [sampleConnA]).2 :=
  ⟨(c5_closeAll_empties_and_sends_before_close [sampleConnA]).1,
   (c5_closeAll_empties_and_sends_before_close [sampleConnA]).2 sampleConnA
     (by decide) rfl rfl⟩

/-- Appending a connection under a fresh id makes that id resolve to it. -/
theorem getConnection_addConnection_of_fresh (reg : Registry) (id : String)
    (sock : Socket) (uid : Option String)
    (h : getConnection reg id = none) :
    getConnection (addConnection reg id sock uid) id =
      some { id := id, socket := sock, userId := uid, subscriptions := [],
             isAlive := true, pongTimeoutArmed := false } := by
  unfold getConnection at h
  unfold getConnection addConnection
  induction reg with
  | nil => simp
  | cons c rest ih =>
    rw [List.find?_cons] at h
    rw [List.cons_append, List.find?_cons]
    cases hbx : (c.id == id) with
    | true => rw [hbx] at h; simp at h
    | false => rw [hbx] at h; exact ih h

/-- C6: a missing or invalid bearer token never refuses the connection — the
connect handler always registers the connection and sends a `connected`
message whose `authenticated`/`userId` fields mirror the resolved user id:
`none` (so `authenticated = false`, `userId = null`) when no token was
supplied or the verifier rejected it, and the verified user's id (so
`authenticated = true`) when the verifier accepted it. -/
theorem c6_auth_failure_never_refuses_connection :
    (∀ reg freshId sock qt ah verify, getConnection reg freshId = none →
        ∃ c, getConnection
              (realtimeConnect reg freshId sock qt ah verify).1 freshId =
              some c
          ∧ c.userId = connectUserId qt ah verify
          ∧ (realtimeConnect reg freshId sock qt ah verify).2 =
              Outbound.connected (connectUserId qt ah verify).isSome
                (connectUserId qt ah verify))
    ∧ (∀ qt ah verify,
        (∀ t, tokenOf qt ah = some t → verify t = none) →
        connectUserId qt ah verify = none)
    ∧ (∀ qt ah verify t u, tokenOf qt ah = some t → verify t = some u →
        connectUserId qt ah verify = some u.id) := by
  refine ⟨?_, ?_, ?_⟩
  · intro reg freshId sock qt ah verify h
    exact ⟨_, getConnection_addConnection_of_fresh reg freshId sock _ h,
           rfl, rfl⟩
  · intro qt ah verify h
    unfold connectUserId
    cases htok : tokenOf qt ah with
    | none => rfl
    | some t =>
      show Option.map (fun u => u.id) (verify t) = none
      rw [h t htok]
      rfl
  · intro qt ah verify t u h1 h2
    unfold connectUserId
    rw [h1]
    show Option.map (fun u => u.id) (verify t) = some u.id
    rw [h2]
    rfl

/-- Witness for C6: an anonymous connect (no token), a rejected token, and an
accepted token. -/
theorem c6_witness :
    (∃ c, getConnection
          (realtimeConnect [] "a" ⟨1, false⟩ none none (fun _ => none)).1
          "a" = some c
      ∧ c.userId = connectUserId none none (fun _ => none)
      ∧ (realtimeConnect [] "a" ⟨1, false⟩ none none (fun _ => none)).2 =
          Outbound.connected (connectUserId none none (fun _ => none)).isSome
            (connectUserId none none (fun _ => none)))
    ∧ connectUserId none none (fun _ => none) = none
    ∧ connectUserId (some "tok") none (fun _ => some ⟨"u1", "e"⟩) =
        some "u1" :=
  ⟨c6_auth_failure_never_refuses_connection.1 [] "a" ⟨1, false⟩ none none
     (fun _ => none) rfl,
   c6_auth_failure_never_refuses_connection.2.1 none none (fun _ => none)
     (fun _ _ => rfl),
   c6_auth_failure_never_refuses_connection.2.2 (some "tok") none
     (fun _ => some ⟨"u1", "e"⟩) "tok" ⟨"u1", "e"⟩ rfl rfl⟩

/-- C7: an unparseable inbound frame draws the `error "Invalid message
format"` reply and a parseable frame whose `type` is none of
ping/subscribe/unsubscribe draws the `error "Unknown message type"` reply;
in both cases the gateway state (registry included) is unchanged, and the
handler neither closes the socket nor unregisters the connection (it has no
such effect in any branch). -/
theorem c7_malformed_and_unknown_frames_not_fatal :
    (∀ st, handleMessage st .malformed =
        (st, [.error "Invalid message format"]))
    ∧ (∀ st msgType channel receiptId table,
        msgType ≠ "ping" → msgType ≠ "subscribe" → msgType ≠ "unsubscribe" →
        handleMessage st (.frame msgType channel receiptId table) =
          (st, [.error "Unknown message type"])) := by
  refine ⟨fun st => rfl, ?_⟩
  intro st msgType channel receiptId table h1 h2 h3
  simp [handleMessage, h1, h2, h3]

/-- Witness for C7 at a concrete state and a concrete unknown type. -/
theorem c7_witness :
    handleMessage sampleStaleState .malformed =
      (sampleStaleState, [.error "Invalid message format"])
    ∧ handleMessage sampleStaleState (.frame "bogus" none none none) =
      (sampleStaleState, [.error "Unknown message type"]) :=
  ⟨c7_malformed_and_unknown_frames_not_fatal.1 sampleStaleState,
   c7_malformed_and_unknown_frames_not_fatal.2 sampleStaleState "bogus"
     none none none (by decide) (by decide) (by decide)⟩

/-- C9: a `subscribe` frame naming a table with a still-active subscription
on the same connection draws an `error` reply and changes nothing; a single
`unsubscribe` for that table replies `unsubscribed` and fully clears the
`table:<name>` key; an `unsubscribe` for a table with no active subscription
is silently ignored (no reply, no change). -/
theorem c9_duplicate_table_subscribe_rejected (st₁ st₂ : GatewayState)
    (tb : String)
    (h1 : ("table:" ++ tb) ∈ st₁.supabaseChannels)
    (h2 : ("table:" ++ tb) ∉ st₂.supabaseChannels) :
    handleMessage st₁ (.frame "subscribe" none none (some tb)) =
        (st₁, [.error ("Already subscribed to table: " ++ tb)])
    ∧ (handleMessage st₁ (.frame "unsubscribe" none none (some tb))).2 =
        [.unsubscribed none none (some tb)]
    ∧ ("table:" ++ tb) ∉
        (handleMessage st₁
          (.frame "unsubscribe" none none (some tb))).1.supabaseChannels
    ∧ handleMessage st₂ (.frame "unsubscribe" none none (some tb)) =
        (st₂, []) := by
  refine ⟨?_, ?_, ?_, ?_⟩
  · simp [handleMessage, h1]
  · simp [handleMessage, h1]
  · simp [handleMessage, h1, List.mem_filter]
  · simp [handleMessage, h2]

/-- Witness for C9 on concrete gateway states. -/
theorem c9_witness :
    handleMessage sampleTableState (.frame "subscribe" none none (some "x")) =
        (sampleTableState, [.error ("Already subscribed to table: " ++ "x")])
    ∧ (handleMessage sampleTableState
        (.frame "unsubscribe" none none (some "x"))).2 =
        [.unsubscribed none none (some "x")]
    ∧ ("table:" ++ "x") ∉
        (handleMessage sampleTableState
          (.frame "unsubscribe" none none (some "x"))).1.supabaseChannels
    ∧ handleMessage sampleStaleState
        (.frame "unsubscribe" none none (some "x")) =
        (sampleStaleState, []) :=
  c9_duplicate_table_subscribe_rejected sampleTableState sampleStaleState "x"
    (by decide) (by decide)

/-- The ids of a user's connections are untouched by a subscription-set
rewrite of any connection. -/
theorem getConnectionsByUserId_ids_updateConn (reg : Registry) (cid : String)
    (f : WebSocketConnection → WebSocketConnection)
    (hid : ∀ c, (f c).id = c.id) (huser : ∀ c, (f c).userId = c.userId)
    (u : String) :
    (getConnectionsByUserId (updateConn reg cid f) u).map (fun c => c.id) =
      (getConnectionsByUserId reg u).map (fun c => c.id) := by
  rw [getConnectionsByUserId_updateConn reg cid f huser u, List.map_map]
  apply List.map_congr_left
  intro c _
  simp only [Function.comp_apply]
  by_cases h : c.id = cid <;> simp [h, hid c]

/-- C10: delivery through `broadcastNotification` is governed solely by the
connection's authenticated user id, never by its subscription set — every
registered connection of the notification's user is targeted even with an
empty subscription set, adding or removing the `notifications` subscription
(or any other) changes neither the targeted ids nor the count
`broadcastToUser` returns, and `broadcastNotification` is exactly
`broadcastToUser` on the notification's user id. -/
theorem c10_notification_delivery_ignores_subscriptions :
    (∀ reg u c, c ∈ reg → c.userId = some u →
        c ∈ getConnectionsByUserId reg u)
    ∧ (∀ reg cid ch u,
        broadcastToUser (subscribe reg cid ch) u = broadcastToUser reg u
        ∧ (getConnectionsByUserId (subscribe reg cid ch) u).map
            (fun c => c.id) =
          (getConnectionsByUserId reg u).map (fun c => c.id))
    ∧ (∀ reg cid ch u,
        broadcastToUser (unsubscribe reg cid ch) u = broadcastToUser reg u
        ∧ (getConnectionsByUserId (unsubscribe reg cid ch) u).map
            (fun c => c.id) =
          (getConnectionsByUserId reg u).map (fun c => c.id))
    ∧ (∀ reg n, n.userId ≠ "" →
        broadcastNotification reg n = broadcastToUser reg n.userId) := by
  refine ⟨?_, ?_, ?_, ?_⟩
  · intro reg u c hc hu
    exact (mem_getConnectionsByUserId reg u c).mpr ⟨hc, hu⟩
  · intro reg cid ch u
    constructor
    · exact broadcastToUser_updateConn reg cid
        (fun c => { c with subscriptions :=
          if ch ∈ c.subscriptions then c.subscriptions
          else c.subscriptions ++ [ch] })
        (fun _ => rfl) (fun _ => rfl) (fun _ => rfl) u
    · exact getConnectionsByUserId_ids_updateConn reg cid
        (fun c => { c with subscriptions :=
          if ch ∈ c.subscriptions then c.subscriptions
          else c.subscriptions ++ [ch] })
        (fun _ => rfl) (fun _ => rfl) u
  · intro reg cid ch u
    constructor
    · exact broadcastToUser_updateConn reg cid
        (fun c => { c with subscriptions :=
          c.subscriptions.filter (fun s => s != ch) })
        (fun _ => rfl) (fun _ => rfl) (fun _ => rfl) u
    · exact getConnectionsByUserId_ids_updateConn reg cid
        (fun c => { c with subscriptions :=
          c.subscriptions.filter (fun s => s != ch) })
        (fun _ => rfl) (fun _ => rfl) u
  · intro reg n h
    unfold broadcastNotification
    rw [if_neg h]

/-- Witness for C10: a connection with an empty subscription set is targeted
and the counts are invariant under subscribing/unsubscribing
`notifications`. -/
theorem c10_witness :
    sampleConnA ∈ getConnectionsByUserId [sampleConnA] "u1"
    ∧ broadcastToUser (subscribe [sampleConnA] "a" "notifications") "u1" =
        broadcastToUser [sampleConnA] "u1"
    ∧ broadcastToUser (unsubscribe [sampleConnA] "a" "notifications") "u1" =
        broadcastToUser [sampleConnA] "u1"
    ∧ broadcastNotification [sampleConnA] ⟨"u1"⟩ =
        broadcastToUser [sampleConnA] "u1" :=
  ⟨c10_notification_delivery_ignores_subscriptions.1 [sampleConnA] "u1"
     sampleConnA (by decide) rfl,
   (c10_notification_delivery_ignores_subscriptions.2.1 [sampleConnA] "a"
     "notifications" "u1").1,
   (c10_notification_delivery_ignores_subscriptions.2.2.1 [sampleConnA] "a"
     "notifications" "u1").1,
   c10_notification_delivery_ignores_subscriptions.2.2.2 [sampleConnA]
     ⟨"u1"⟩ (by decide)⟩

end Sharezin
